import Mathlib

/-!
Verification of the e-commerce system (models.py, services.py, repositories.py,
ui.py) by a shallow embedding in Lean 4.  Python float amounts are modelled by
the rationals; the claims under verification only restate the arithmetic the
code performs, in the same operation order, so exact arithmetic is faithful.
Generated uuid identifiers and timestamps are modelled as explicit parameters
(fresh-id arguments); timestamp fields carry no claim and are omitted.
-/

namespace ECommerce

/-- Address (models.py): street, city, postal code, country. -/
structure Address where
  street : String
  city : String
  postal_code : String
  country : String
deriving DecidableEq

/-- Customer (models.py): the generated uuid is modelled as the stored field. -/
structure Customer where
  customer_id : String
  name : String
  email : String
  password : String
  address : Address
deriving DecidableEq

/-- Product (models.py): price is a Python float, modelled as a rational. -/
structure Product where
  product_id : String
  name : String
  description : String
  price : ℚ
  quantity_available : Int
deriving DecidableEq

/-- CartItem (models.py): a product together with a quantity. -/
structure CartItem where
  product : Product
  quantity : Int
deriving DecidableEq

/-- CartItem.get_subtotal: price * quantity. -/
def CartItem.get_subtotal (c : CartItem) : ℚ :=
  c.product.price * (c.quantity : ℚ)

/-- ShoppingCart (models.py): list of items plus the owning customer id. -/
structure ShoppingCart where
  items : List CartItem
  customer_id : String
deriving DecidableEq

/-- ShoppingCart.is_empty: len(items) == 0. -/
def ShoppingCart.is_empty (c : ShoppingCart) : Bool :=
  c.items.length == 0

/-- ShoppingCart.clear: items becomes the empty list. -/
def ShoppingCart.clear (c : ShoppingCart) : ShoppingCart :=
  { c with items := [] }

/-- OrderLine (models.py): product, quantity, unit price frozen at order time. -/
structure OrderLine where
  product : Product
  quantity : Int
  unit_price : ℚ
deriving DecidableEq

/-- OrderLine.get_line_total: unit_price * quantity. -/
def OrderLine.get_line_total (l : OrderLine) : ℚ :=
  l.unit_price * (l.quantity : ℚ)

/-- The dictionary produced by OrderLine.to_dict (models.py). -/
structure OrderLineRecord where
  product_id : String
  product_name : String
  quantity : Int
  unit_price : ℚ
  line_total : ℚ
deriving DecidableEq

/-- OrderLine.to_dict (models.py). -/
def OrderLine.to_dict (l : OrderLine) : OrderLineRecord :=
  { product_id := l.product.product_id
    product_name := l.product.name
    quantity := l.quantity
    unit_price := l.unit_price
    line_total := l.get_line_total }

/-- Invoice (models.py): ids, the line items, and the copied totals.
Date fields carry no claim and are omitted. -/
structure Invoice where
  invoice_id : String
  order_id : String
  customer_id : String
  items : List OrderLine
  subtotal : ℚ
  tax_amount : ℚ
  total_amount : ℚ
deriving DecidableEq

/-- The dictionary produced by Invoice.to_dict (models.py). -/
structure InvoiceRecord where
  invoice_id : String
  order_id : String
  customer_id : String
  items : List OrderLineRecord
  subtotal : ℚ
  tax_amount : ℚ
  total_amount : ℚ
deriving DecidableEq

/-- Invoice.to_dict (models.py). -/
def Invoice.to_dict (i : Invoice) : InvoiceRecord :=
  { invoice_id := i.invoice_id
    order_id := i.order_id
    customer_id := i.customer_id
    items := i.items.map OrderLine.to_dict
    subtotal := i.subtotal
    tax_amount := i.tax_amount
    total_amount := i.total_amount }

/-- Invoice.from_dict (models.py): rebuilds the invoice with order_lines=[]. -/
def Invoice.from_dict (d : InvoiceRecord) : Invoice :=
  { invoice_id := d.invoice_id
    order_id := d.order_id
    customer_id := d.customer_id
    items := []
    subtotal := d.subtotal
    tax_amount := d.tax_amount
    total_amount := d.total_amount }

/-- Shipment (models.py); the generated uuid is an explicit parameter of init. -/
structure Shipment where
  shipment_id : String
  order_id : String
  tracking_number : String
  status : String
deriving DecidableEq

/-- Shipment.__init__ (models.py): tracking number derives from the first 8
characters of the shipment id, uppercased. -/
def Shipment.init (fresh_shipment_id : String) (order_id : String) : Shipment :=
  { shipment_id := fresh_shipment_id
    order_id := order_id
    tracking_number := "TRACK-" ++ (fresh_shipment_id.take 8).toUpper
    status := "Pending" }

/-- The dictionary produced by Shipment.to_dict (models.py). -/
structure ShipmentRecord where
  shipment_id : String
  order_id : String
  tracking_number : String
  status : String
deriving DecidableEq

/-- Shipment.to_dict (models.py). -/
def Shipment.to_dict (s : Shipment) : ShipmentRecord :=
  { shipment_id := s.shipment_id
    order_id := s.order_id
    tracking_number := s.tracking_number
    status := s.status }

/-- Shipment.from_dict (models.py). -/
def Shipment.from_dict (d : ShipmentRecord) : Shipment :=
  { shipment_id := d.shipment_id
    order_id := d.order_id
    tracking_number := d.tracking_number
    status := d.status }

/-- Order (models.py): value-level model of the order object. -/
structure Order where
  order_id : String
  customer_id : String
  order_lines : List OrderLine
  subtotal : ℚ
  tax_amount : ℚ
  shipping_cost : ℚ
  total_amount : ℚ
  status : String
  invoice : Option Invoice
  shipment : Option Shipment
deriving DecidableEq

/-- Order.__init__ (models.py): the generated uuid is an explicit parameter. -/
def Order.init (fresh_order_id : String) (customer_id : String) : Order :=
  { order_id := fresh_order_id
    customer_id := customer_id
    order_lines := []
    subtotal := 0
    tax_amount := 0
    shipping_cost := 0
    total_amount := 0
    status := "Pending"
    invoice := none
    shipment := none }

/-- Order.add_line (models.py): append one line. -/
def Order.add_line (o : Order) (line : OrderLine) : Order :=
  { o with order_lines := o.order_lines ++ [line] }

/-- Order.calculate_totals (models.py): subtotal is the sum of the line totals,
tax is subtotal * tax_rate, total is subtotal + tax + shipping. -/
def Order.calculate_totals (o : Order) (tax_rate : ℚ) (shipping_cost : ℚ) : Order :=
  let subtotal := (o.order_lines.map OrderLine.get_line_total).sum
  let tax_amount := subtotal * tax_rate
  { o with
    subtotal := subtotal
    tax_amount := tax_amount
    shipping_cost := shipping_cost
    total_amount := subtotal + tax_amount + shipping_cost }

/-- Order.set_status (models.py). -/
def Order.set_status (o : Order) (status : String) : Order :=
  { o with status := status }

/-- The dictionary produced by Order.to_dict (models.py). -/
structure OrderRecord where
  order_id : String
  customer_id : String
  order_lines : List OrderLineRecord
  subtotal : ℚ
  tax_amount : ℚ
  shipping_cost : ℚ
  total_amount : ℚ
  status : String
  invoice : Option InvoiceRecord
  shipment : Option ShipmentRecord
deriving DecidableEq

/-- Order.to_dict (models.py): serializes the lines and the optional invoice
and shipment. -/
def Order.to_dict (o : Order) : OrderRecord :=
  { order_id := o.order_id
    customer_id := o.customer_id
    order_lines := o.order_lines.map OrderLine.to_dict
    subtotal := o.subtotal
    tax_amount := o.tax_amount
    shipping_cost := o.shipping_cost
    total_amount := o.total_amount
    status := o.status
    invoice := o.invoice.map Invoice.to_dict
    shipment := o.shipment.map Shipment.to_dict }

/-- Order.from_dict (models.py): restores the scalar fields, the status and
the optional invoice and shipment, but never reads the serialized
order_lines, leaving the rebuilt order with an empty line list. -/
def Order.from_dict (d : OrderRecord) : Order :=
  { order_id := d.order_id
    customer_id := d.customer_id
    order_lines := []
    subtotal := d.subtotal
    tax_amount := d.tax_amount
    shipping_cost := d.shipping_cost
    total_amount := d.total_amount
    status := d.status
    invoice := d.invoice.map Invoice.from_dict
    shipment := d.shipment.map Shipment.from_dict }

/-- PricingService (services.py): configured tax rate and shipping cost. -/
structure PricingService where
  tax_rate : ℚ
  shipping_cost : ℚ
deriving DecidableEq

/-- PricingService.calculate_order_total (services.py). -/
def PricingService.calculate_order_total (s : PricingService) (o : Order) : Order :=
  o.calculate_totals s.tax_rate s.shipping_cost

/-- PricingService.get_tax_amount (services.py). -/
def PricingService.get_tax_amount (s : PricingService) (subtotal : ℚ) : ℚ :=
  subtotal * s.tax_rate

/-- PricingService.get_total_with_tax_and_shipping (services.py). -/
def PricingService.get_total_with_tax_and_shipping (s : PricingService) (subtotal : ℚ) : ℚ :=
  let tax := s.get_tax_amount subtotal
  subtotal + tax + s.shipping_cost

/-- The three concrete PaymentGateway strategies (services.py). -/
inductive PaymentGateway where
  | creditCardGateway
  | digitalWalletGateway
  | bankTransferGateway
deriving DecidableEq

/-- PaymentGateway.process_payment of each mock gateway (services.py): always
approves, with a transaction id built from a tag, the first 8 characters of
the order id, and a SUCCESS marker.  The amount is ignored by every variant. -/
def PaymentGateway.process_payment : PaymentGateway → ℚ → String → Bool × String
  | .creditCardGateway, _amount, order_id => (true, "CC-" ++ order_id.take 8 ++ "-SUCCESS")
  | .digitalWalletGateway, _amount, order_id => (true, "DW-" ++ order_id.take 8 ++ "-SUCCESS")
  | .bankTransferGateway, _amount, order_id => (true, "BT-" ++ order_id.take 8 ++ "-SUCCESS")

/-- The payment_gateways registry of PaymentService.__init__ (services.py),
modelled as the lookup function of the Python dict. -/
def PaymentService.payment_gateways (method : String) : Option PaymentGateway :=
  if method = "credit_card" then some .creditCardGateway
  else if method = "digital_wallet" then some .digitalWalletGateway
  else if method = "bank_transfer" then some .bankTransferGateway
  else none

/-- PaymentService.get_available_payment_methods (services.py): the dict keys
in insertion order. -/
def PaymentService.get_available_payment_methods : List String :=
  ["credit_card", "digital_wallet", "bank_transfer"]

/-- PaymentService.process_order_payment (services.py): an unregistered name
returns failure without touching any gateway; otherwise the selected gateway
processes the order total against the order id. -/
def PaymentService.process_order_payment (order : Order) (payment_method : String) :
    Bool × String :=
  match PaymentService.payment_gateways payment_method with
  | none => (false, "Invalid payment method: " ++ payment_method)
  | some gateway => gateway.process_payment order.total_amount order.order_id

/-! Sample concrete values used by the witness theorems. -/

def sampleProduct : Product :=
  { product_id := "p1", name := "Widget", description := "A widget"
    price := 5, quantity_available := 10 }

def sampleLine : OrderLine :=
  { product := sampleProduct, quantity := 2, unit_price := 5 }

def sampleOrder : Order :=
  { Order.init "order-1" "cust-1" with order_lines := [sampleLine] }

/-- C1: after calculate_totals with tax_rate in the unit interval and
non-negative shipping, subtotal is the sum of the line totals, tax is
subtotal times the rate, total is subtotal plus tax plus shipping; an order
with no lines gets subtotal 0 and total equal to the shipping cost. -/
theorem C1_calculate_totals (o : Order) (tax_rate shipping_cost : ℚ)
    (h0 : 0 ≤ tax_rate) (h1 : tax_rate < 1) (h2 : 0 ≤ shipping_cost) :
    (o.calculate_totals tax_rate shipping_cost).subtotal
        = ((o.calculate_totals tax_rate shipping_cost).order_lines.map
            OrderLine.get_line_total).sum ∧
    (o.calculate_totals tax_rate shipping_cost).tax_amount
        = (o.calculate_totals tax_rate shipping_cost).subtotal * tax_rate ∧
    (o.calculate_totals tax_rate shipping_cost).total_amount
        = (o.calculate_totals tax_rate shipping_cost).subtotal
          + (o.calculate_totals tax_rate shipping_cost).tax_amount + shipping_cost ∧
    (o.order_lines = [] →
      (o.calculate_totals tax_rate shipping_cost).subtotal = 0 ∧
      (o.calculate_totals tax_rate shipping_cost).total_amount = shipping_cost) := by
  refine ⟨rfl, rfl, rfl, fun h => ?_⟩
  simp [Order.calculate_totals, h]

/-- Witness for C1 at a concrete one-line order, tax rate 1/10, shipping 3. -/
theorem C1_calculate_totals_witness :
    (sampleOrder.calculate_totals (1/10) 3).subtotal
        = ((sampleOrder.calculate_totals (1/10) 3).order_lines.map
            OrderLine.get_line_total).sum ∧
    (sampleOrder.calculate_totals (1/10) 3).tax_amount
        = (sampleOrder.calculate_totals (1/10) 3).subtotal * (1/10) ∧
    (sampleOrder.calculate_totals (1/10) 3).total_amount
        = (sampleOrder.calculate_totals (1/10) 3).subtotal
          + (sampleOrder.calculate_totals (1/10) 3).tax_amount + 3 ∧
    (sampleOrder.order_lines = [] →
      (sampleOrder.calculate_totals (1/10) 3).subtotal = 0 ∧
      (sampleOrder.calculate_totals (1/10) 3).total_amount = 3) :=
  C1_calculate_totals sampleOrder (1/10) 3 (by norm_num) (by norm_num) (by norm_num)

/-- C10: after calculate_totals with the configured rate and cost of the
pricing service, the stored order totals agree with the preview computations
get_total_with_tax_and_shipping and get_tax_amount on the stored subtotal. -/
theorem C10_pricing_agreement (s : PricingService) (o : Order) :
    (s.calculate_order_total o).total_amount
        = s.get_total_with_tax_and_shipping (s.calculate_order_total o).subtotal ∧
    (s.calculate_order_total o).tax_amount
        = s.get_tax_amount (s.calculate_order_total o).subtotal := by
  exact ⟨rfl, rfl⟩

/-- C5: each of the three registered method names dispatches to its mock
gateway and succeeds with the tagged transaction id built from the first 8
characters of the order id; any other name fails with an invalid-method
message and reaches no gateway. -/
theorem C5_payment_dispatch (o : Order) (m : String) :
    (m = "credit_card" →
      PaymentService.process_order_payment o m
        = (true, "CC-" ++ o.order_id.take 8 ++ "-SUCCESS")) ∧
    (m = "digital_wallet" →
      PaymentService.process_order_payment o m
        = (true, "DW-" ++ o.order_id.take 8 ++ "-SUCCESS")) ∧
    (m = "bank_transfer" →
      PaymentService.process_order_payment o m
        = (true, "BT-" ++ o.order_id.take 8 ++ "-SUCCESS")) ∧
    (m ∉ PaymentService.get_available_payment_methods →
      PaymentService.process_order_payment o m
        = (false, "Invalid payment method: " ++ m)) := by
  refine ⟨fun h => ?_, fun h => ?_, fun h => ?_, fun h => ?_⟩
  · subst h
    rfl
  · subst h
    rfl
  · subst h
    rfl
  · simp only [PaymentService.get_available_payment_methods, List.mem_cons,
      List.not_mem_nil, or_false, not_or] at h
    obtain ⟨h1, h2, h3⟩ := h
    simp [PaymentService.process_order_payment, PaymentService.payment_gateways,
      h1, h2, h3]

/-- Witness for C5 at the credit card method on a concrete order. -/
theorem C5_payment_dispatch_witness :
    PaymentService.process_order_payment sampleOrder "credit_card"
      = (true, "CC-" ++ sampleOrder.order_id.take 8 ++ "-SUCCESS") :=
  (C5_payment_dispatch sampleOrder "credit_card").1 rfl

/-! Order repository (repositories.py).  The backing JSON file of
OrderRepository is modelled by its parse outcome: a well-formed JSON list of
order records, an empty file, or unparseable text raising JSONDecodeError. -/

inductive StoreContent where
  | jsonList (orders : List OrderRecord)
  | emptyFile
  | corruptFile
deriving DecidableEq

/-- OrderRepository._load_all (repositories.py): empty content and a
JSONDecodeError both degrade to the empty list. -/
def OrderRepository.load_all : StoreContent → List OrderRecord
  | .jsonList orders => orders
  | .emptyFile => []
  | .corruptFile => []

/-- The update loop of OrderRepository.save (repositories.py): replace the
first record carrying the same order id in place, else append at the end. -/
def saveLoop : List OrderRecord → OrderRecord → List OrderRecord
  | [], r => [r]
  | o :: os, r => if o.order_id = r.order_id then r :: os else o :: saveLoop os r

/-- OrderRepository.save (repositories.py): load, upsert by order id on the
serialized order, write back. -/
def OrderRepository.save (c : StoreContent) (order : Order) : StoreContent :=
  .jsonList (saveLoop (OrderRepository.load_all c) order.to_dict)

/-- The scan loop of OrderRepository.find_by_id (repositories.py): first
record with the requested order id, deserialized. -/
def findByIdLoop : List OrderRecord → String → Option Order
  | [], _ => none
  | o :: os, oid => if o.order_id = oid then some (Order.from_dict o) else findByIdLoop os oid

/-- OrderRepository.find_by_id (repositories.py). -/
def OrderRepository.find_by_id (c : StoreContent) (order_id : String) : Option Order :=
  findByIdLoop (OrderRepository.load_all c) order_id

/-- The accumulating loop of OrderRepository.find_by_customer_id
(repositories.py): keep every record of the customer, in storage order. -/
def findByCustomerLoop : List OrderRecord → String → List Order
  | [], _ => []
  | o :: os, cid =>
    if o.customer_id = cid then Order.from_dict o :: findByCustomerLoop os cid
    else findByCustomerLoop os cid

/-- OrderRepository.find_by_customer_id (repositories.py). -/
def OrderRepository.find_by_customer_id (c : StoreContent) (customer_id : String) :
    List Order :=
  findByCustomerLoop (OrderRepository.load_all c) customer_id

/-- OrderRepository.get_all (repositories.py). -/
def OrderRepository.get_all (c : StoreContent) : List Order :=
  (OrderRepository.load_all c).map Order.from_dict

theorem saveLoop_of_not_mem (l : List OrderRecord) (r : OrderRecord)
    (h : ∀ x ∈ l, x.order_id ≠ r.order_id) : saveLoop l r = l ++ [r] := by
  induction l with
  | nil => rfl
  | cons o os ih =>
    have ho : o.order_id ≠ r.order_id := h o (List.mem_cons_self o os)
    simp only [saveLoop, if_neg ho, List.cons_append, List.cons.injEq, true_and]
    exact ih fun x hx => h x (List.mem_cons_of_mem o hx)

theorem saveLoop_replace (pre post : List OrderRecord) (x r : OrderRecord)
    (hx : x.order_id = r.order_id) (hpre : ∀ y ∈ pre, y.order_id ≠ r.order_id) :
    saveLoop (pre ++ x :: post) r = pre ++ r :: post := by
  induction pre with
  | nil => simp [saveLoop, hx]
  | cons p ps ih =>
    have hp : p.order_id ≠ r.order_id := hpre p (List.mem_cons_self p ps)
    simp only [List.cons_append, saveLoop, if_neg hp, List.cons.injEq, true_and]
    exact ih fun y hy => hpre y (List.mem_cons_of_mem p hy)

theorem saveLoop_idem (l : List OrderRecord) (r : OrderRecord) :
    saveLoop (saveLoop l r) r = saveLoop l r := by
  induction l with
  | nil => simp [saveLoop]
  | cons o os ih =>
    by_cases ho : o.order_id = r.order_id
    · simp [saveLoop, ho]
    · simp [saveLoop, ho, ih]

theorem saveLoop_count (l : List OrderRecord) (r : OrderRecord)
    (h : l.countP (fun x => x.order_id == r.order_id) ≤ 1) :
    (saveLoop l r).countP (fun x => x.order_id == r.order_id) = 1 := by
  induction l with
  | nil => simp [saveLoop]
  | cons o os ih =>
    by_cases ho : o.order_id = r.order_id
    · simp only [saveLoop, if_pos ho]
      have hos : os.countP (fun x => x.order_id == r.order_id) = 0 := by
        have hcons : (o :: os).countP (fun x => x.order_id == r.order_id)
            = os.countP (fun x => x.order_id == r.order_id) + 1 := by
          simp [List.countP_cons, ho]
        omega
      simp [List.countP_cons, hos]
    · simp only [saveLoop, if_neg ho]
      have hcount : os.countP (fun x => x.order_id == r.order_id) ≤ 1 := by
        have := h
        simp only [List.countP_cons] at this
        omega
      have := ih hcount
      simp [List.countP_cons, ho, this]

/-- C6: save is an upsert keyed by order id: with the id already stored once,
the record is replaced in place leaving all others untouched; with the id
absent the record is appended; saving twice is the same as saving once, and
starting from a store holding the id at most once, after a double save
exactly one record carries the id. -/
theorem C6_save_upsert (c : StoreContent) (o : Order) :
    (∀ pre x post, OrderRepository.load_all c = pre ++ x :: post →
        x.order_id = o.order_id → (∀ y ∈ pre, y.order_id ≠ o.order_id) →
        OrderRepository.load_all (OrderRepository.save c o) = pre ++ o.to_dict :: post) ∧
    ((∀ x ∈ OrderRepository.load_all c, x.order_id ≠ o.order_id) →
        OrderRepository.load_all (OrderRepository.save c o)
          = OrderRepository.load_all c ++ [o.to_dict]) ∧
    OrderRepository.save (OrderRepository.save c o) o = OrderRepository.save c o ∧
    ((OrderRepository.load_all c).countP (fun x => x.order_id == o.order_id) ≤ 1 →
        (OrderRepository.load_all (OrderRepository.save c o)).countP
            (fun x => x.order_id == o.order_id) = 1) := by
  refine ⟨?_, ?_, ?_, ?_⟩
  · intro pre x post hsplit hx hpre
    show saveLoop (OrderRepository.load_all c) o.to_dict = pre ++ o.to_dict :: post
    rw [hsplit]
    exact saveLoop_replace pre post x o.to_dict hx hpre
  · intro h
    exact saveLoop_of_not_mem (OrderRepository.load_all c) o.to_dict h
  · show StoreContent.jsonList
        (saveLoop (saveLoop (OrderRepository.load_all c) o.to_dict) o.to_dict)
      = StoreContent.jsonList (saveLoop (OrderRepository.load_all c) o.to_dict)
    rw [saveLoop_idem]
  · intro h
    exact saveLoop_count (OrderRepository.load_all c) o.to_dict h

/-- Witness for C6 on an initially empty store: saving appends the record. -/
theorem C6_save_upsert_witness :
    OrderRepository.load_all (OrderRepository.save (.jsonList []) sampleOrder)
      = OrderRepository.load_all (.jsonList []) ++ [sampleOrder.to_dict] :=
  (C6_save_upsert (.jsonList []) sampleOrder).2.1 (by simp [OrderRepository.load_all])

theorem findByCustomerLoop_eq_filter (l : List OrderRecord) (cid : String) :
    findByCustomerLoop l cid
      = (l.filter (fun r => r.customer_id == cid)).map Order.from_dict := by
  induction l with
  | nil => rfl
  | cons o os ih =>
    by_cases h : o.customer_id = cid
    · simp [findByCustomerLoop, h, ih, List.filter_cons]
    · simp [findByCustomerLoop, h, ih, List.filter_cons]

/-- C7: find_by_customer_id returns exactly the stored records of the given
customer, deserialized, in storage order; with no matching record it returns
the empty list. -/
theorem C7_find_by_customer (c : StoreContent) (cid : String) :
    OrderRepository.find_by_customer_id c cid
        = ((OrderRepository.load_all c).filter
            (fun r => r.customer_id == cid)).map Order.from_dict ∧
    ((∀ r ∈ OrderRepository.load_all c, r.customer_id ≠ cid) →
        OrderRepository.find_by_customer_id c cid = []) := by
  constructor
  · exact findByCustomerLoop_eq_filter (OrderRepository.load_all c) cid
  · intro h
    rw [OrderRepository.find_by_customer_id,
      findByCustomerLoop_eq_filter (OrderRepository.load_all c) cid]
    have : (OrderRepository.load_all c).filter (fun r => r.customer_id == cid) = [] := by
      rw [List.filter_eq_nil_iff]
      intro r hr
      simpa using h r hr
    rw [this]
    rfl

/-- Witness for C7: an unknown customer id on a one-record store yields []. -/
theorem C7_find_by_customer_witness :
    OrderRepository.find_by_customer_id (.jsonList [sampleOrder.to_dict]) "cust-2" = [] :=
  (C7_find_by_customer (.jsonList [sampleOrder.to_dict]) "cust-2").2 (by decide)

/-- C8: on a corrupt or empty backing store every read operation behaves as
on an empty collection: find_by_id yields none, find_by_customer_id and
get_all yield the empty list. -/
theorem C8_read_degrades (order_id customer_id : String) :
    OrderRepository.find_by_id .corruptFile order_id = none ∧
    OrderRepository.find_by_customer_id .corruptFile customer_id = [] ∧
    OrderRepository.get_all .corruptFile = [] ∧
    OrderRepository.find_by_id .emptyFile order_id = none ∧
    OrderRepository.find_by_customer_id .emptyFile customer_id = [] ∧
    OrderRepository.get_all .emptyFile = [] :=
  ⟨rfl, rfl, rfl, rfl, rfl, rfl⟩

theorem findByIdLoop_saveLoop (l : List OrderRecord) (r : OrderRecord) :
    findByIdLoop (saveLoop l r) r.order_id = some (Order.from_dict r) := by
  induction l with
  | nil => simp [saveLoop, findByIdLoop]
  | cons o os ih =>
    by_cases ho : o.order_id = r.order_id
    · simp [saveLoop, ho, findByIdLoop]
    · simp [saveLoop, ho, findByIdLoop, ih]

/-- C9: the save/find_by_id round trip preserves the identity, status and
money fields of the order but always returns an order with an empty line
list, because Order.from_dict never reads the serialized order_lines. -/
theorem C9_roundtrip_loses_lines (c : StoreContent) (o : Order)
    (h : o.order_lines ≠ []) :
    OrderRepository.find_by_id (OrderRepository.save c o) o.order_id
        = some (Order.from_dict o.to_dict) ∧
    (Order.from_dict o.to_dict).order_id = o.order_id ∧
    (Order.from_dict o.to_dict).customer_id = o.customer_id ∧
    (Order.from_dict o.to_dict).status = o.status ∧
    (Order.from_dict o.to_dict).subtotal = o.subtotal ∧
    (Order.from_dict o.to_dict).tax_amount = o.tax_amount ∧
    (Order.from_dict o.to_dict).shipping_cost = o.shipping_cost ∧
    (Order.from_dict o.to_dict).total_amount = o.total_amount ∧
    (Order.from_dict o.to_dict).order_lines = [] ∧
    (Order.from_dict o.to_dict).order_lines ≠ o.order_lines := by
  refine ⟨?_, rfl, rfl, rfl, rfl, rfl, rfl, rfl, rfl, ?_⟩
  · show findByIdLoop (saveLoop (OrderRepository.load_all c) o.to_dict) o.order_id = _
    have : o.order_id = (o.to_dict).order_id := rfl
    rw [this]
    exact findByIdLoop_saveLoop (OrderRepository.load_all c) o.to_dict
  · intro hcontra
    exact h (by rw [← hcontra]; rfl)

/-- Witness for C9: round trip of a one-line order through an empty store. -/
theorem C9_roundtrip_loses_lines_witness :
    OrderRepository.find_by_id (OrderRepository.save (.jsonList []) sampleOrder)
        sampleOrder.order_id = some (Order.from_dict sampleOrder.to_dict) ∧
    (Order.from_dict sampleOrder.to_dict).order_lines = [] :=
  ⟨(C9_roundtrip_loses_lines (.jsonList []) sampleOrder (by decide)).1,
   (C9_roundtrip_loses_lines (.jsonList []) sampleOrder (by decide)).2.2.2.2.2.2.2.2.1⟩

/-! Checkout flow (ApplicationController.checkout, ui.py).  The interactive
prompts are modelled by their outcome: the authenticated user, the selected
payment method name, and the fresh uuid parameters. -/

/-- Invoice.__init__ (models.py): stores the ids, the passed line list and
the passed totals.  Value-level model; the reference-semantics model of the
same constructor is below in the Alias namespace. -/
def Invoice.init (fresh_invoice_id : String) (order_id customer_id : String)
    (order_lines : List OrderLine) (subtotal tax_amount total_amount : ℚ) : Invoice :=
  { invoice_id := fresh_invoice_id
    order_id := order_id
    customer_id := customer_id
    items := order_lines
    subtotal := subtotal
    tax_amount := tax_amount
    total_amount := total_amount }

/-- Step 2 of checkout (ui.py): one OrderLine per CartItem, in cart order,
freezing the current product price as unit_price. -/
def assembleOrderLines (items : List CartItem) : List OrderLine :=
  items.map fun cart_item =>
    { product := cart_item.product
      quantity := cart_item.quantity
      unit_price := cart_item.product.price }

/-- Steps 1 to 3 of checkout (ui.py): create the order, convert the cart
items, and let the pricing service calculate the totals. -/
def checkoutOrder (user : Customer) (cart : ShoppingCart) (pricing : PricingService)
    (fresh_order_id : String) : Order :=
  pricing.calculate_order_total
    { Order.init fresh_order_id user.customer_id with
        order_lines := assembleOrderLines cart.items }

/-- Steps 5 to 7 of checkout (ui.py): mark the order Paid, generate the
invoice from the order fields, create the shipment, attach both. -/
def completeOrder (ord : Order) (fresh_invoice_id fresh_shipment_id : String) : Order :=
  let order3 := ord.set_status "Paid"
  let invoice := Invoice.init fresh_invoice_id order3.order_id order3.customer_id
      order3.order_lines order3.subtotal order3.tax_amount order3.total_amount
  let order4 := { order3 with invoice := some invoice }
  let shipment := Shipment.init fresh_shipment_id order4.order_id
  { order4 with shipment := some shipment }

inductive CheckoutStatus where
  | notLoggedIn
  | emptyCart
  | paymentFailed
  | completed
deriving DecidableEq

/-- Observable outcome of one checkout run: the last order object built (if
any), the resulting backing store
and the resulting cart. -/
structure CheckoutResult where
  status : CheckoutStatus
  order : Option Order
  store : StoreContent
  cart : ShoppingCart
deriving DecidableEq

/-- ApplicationController.checkout (ui.py): guard on login and empty cart,
assemble and price the order, process the payment, and only on success mark
the order Paid, attach invoice and shipment, save the order and clear the
cart; on failure return with nothing saved or cleared. -/
def ApplicationController.checkout (current_user : Option Customer) (cart : ShoppingCart)
    (pricing : PricingService) (payment_method : String) (store : StoreContent)
    (fresh_order_id fresh_invoice_id fresh_shipment_id : String) : CheckoutResult :=
  match current_user with
  | none => { status := .notLoggedIn, order := none, store := store, cart := cart }
  | some user =>
    if cart.is_empty then
      { status := .emptyCart, order := none, store := store, cart := cart }
    else
      let order2 := checkoutOrder user cart pricing fresh_order_id
      if (PaymentService.process_order_payment order2 payment_method).1 then
        let order5 := completeOrder order2 fresh_invoice_id fresh_shipment_id
        { status := .completed, order := some order5
          store := OrderRepository.save store order5, cart := cart.clear }
      else
        { status := .paymentFailed, order := some order2, store := store, cart := cart }

/-- The success flag of process_order_payment is a function of the method
name alone: the mock gateways approve every order. -/
theorem process_order_payment_fst (o1 o2 : Order) (m : String) :
    (PaymentService.process_order_payment o1 m).1
      = (PaymentService.process_order_payment o2 m).1 := by
  unfold PaymentService.process_order_payment
  cases PaymentService.payment_gateways m with
  | none => rfl
  | some g => cases g <;> rfl

theorem is_empty_eq_false_of_ne_nil (cart : ShoppingCart) (h : cart.items ≠ []) :
    cart.is_empty = false := by
  cases hc : cart.items with
  | nil => exact absurd hc h
  | cons a as => rw [ShoppingCart.is_empty, hc]; rfl

def sampleCustomer : Customer :=
  { customer_id := "cust-1", name := "Ada", email := "ada@example.com"
    password := "secret123"
    address := { street := "1 Main", city := "Town", postal_code := "12345", country := "X" } }

def sampleCart : ShoppingCart :=
  { items := [{ product := sampleProduct, quantity := 2 }], customer_id := "cust-1" }

def samplePricing : PricingService := { tax_rate := 1/10, shipping_cost := 3 }

def sampleFailedOrder : Order :=
  checkoutOrder sampleCustomer sampleCart samplePricing "order-1"

/-- C2: on a logged-in checkout with a non-empty cart, the resulting order
carries invoice and shipment exactly when payment processing succeeded for
it; on a failed payment the order stays Pending with neither attached, the
store is not written and the cart is not cleared. -/
theorem C2_checkout_payment_gate (user : Customer) (cart : ShoppingCart)
    (pricing : PricingService) (method : String) (store : StoreContent)
    (oid iid sid : String) (h : cart.items ≠ []) :
    ∀ ord,
      (ApplicationController.checkout (some user) cart pricing method store oid iid sid).order
          = some ord →
      ((ord.invoice.isSome = true ∧ ord.shipment.isSome = true) ↔
          (PaymentService.process_order_payment ord method).1 = true) ∧
      ((PaymentService.process_order_payment ord method).1 = false →
          ord.status = "Pending" ∧ ord.invoice = none ∧ ord.shipment = none ∧
          (ApplicationController.checkout (some user) cart pricing method store oid iid sid).store
              = store ∧
          (ApplicationController.checkout (some user) cart pricing method store oid iid sid).cart
              = cart) := by
  have hne : cart.is_empty = false := is_empty_eq_false_of_ne_nil cart h
  intro ord hord
  simp only [ApplicationController.checkout, hne, Bool.false_eq_true, if_false]
  simp only [ApplicationController.checkout, hne, Bool.false_eq_true, if_false] at hord
  by_cases hp : (PaymentService.process_order_payment (checkoutOrder user cart pricing oid)
      method).1 = true
  · rw [if_pos hp] at hord
    simp only [Option.some.injEq] at hord
    subst hord
    have hfst : (PaymentService.process_order_payment
        (completeOrder (checkoutOrder user cart pricing oid) iid sid) method).1 = true := by
      rw [process_order_payment_fst _ (checkoutOrder user cart pricing oid)]
      exact hp
    refine ⟨⟨fun _ => hfst, fun _ => ⟨rfl, rfl⟩⟩, fun hfalse => ?_⟩
    rw [hfst] at hfalse
    cases hfalse
  · rw [if_neg hp] at hord
    simp only [Option.some.injEq] at hord
    subst hord
    have hfst : (PaymentService.process_order_payment
        (checkoutOrder user cart pricing oid) method).1 = false :=
      Bool.not_eq_true _ ▸ Bool.of_not_eq_true hp
    rw [if_neg hp]
    refine ⟨⟨fun hcontra => absurd hcontra.1 (by simp [checkoutOrder, PricingService.calculate_order_total, Order.calculate_totals, Order.init]), fun hcontra => absurd hcontra (by rw [hfst]; exact Bool.false_ne_true)⟩, fun _ => ⟨rfl, rfl, rfl, rfl, rfl⟩⟩

/-- Witness for C2 on a concrete cart with the unregistered method name
paypal: the payment fails and nothing is attached, saved or cleared. -/
theorem C2_checkout_payment_gate_witness :
    ((sampleFailedOrder.invoice.isSome = true ∧ sampleFailedOrder.shipment.isSome = true) ↔
        (PaymentService.process_order_payment sampleFailedOrder "paypal").1 = true) ∧
    ((PaymentService.process_order_payment sampleFailedOrder "paypal").1 = false →
        sampleFailedOrder.status = "Pending" ∧ sampleFailedOrder.invoice = none ∧
        sampleFailedOrder.shipment = none ∧
        (ApplicationController.checkout (some sampleCustomer) sampleCart samplePricing
            "paypal" (.jsonList []) "order-1" "inv-1" "ship-1").store = .jsonList [] ∧
        (ApplicationController.checkout (some sampleCustomer) sampleCart samplePricing
            "paypal" (.jsonList []) "order-1" "inv-1" "ship-1").cart = sampleCart) :=
  C2_checkout_payment_gate sampleCustomer sampleCart samplePricing "paypal"
    (.jsonList []) "order-1" "inv-1" "ship-1" (by decide) sampleFailedOrder rfl

/-- C3: the order assembled at checkout has exactly one line per cart item,
in cart order, each freezing the current product price as unit price; a
later price change of the product never alters a frozen unit price or line
total. -/
theorem C3_order_assembly (user : Customer) (cart : ShoppingCart)
    (pricing : PricingService) (method : String) (store : StoreContent)
    (oid iid sid : String) (h : cart.items ≠ []) :
    (ApplicationController.checkout (some user) cart pricing method store oid iid sid).order.isSome
        = true ∧
    (∀ ord,
      (ApplicationController.checkout (some user) cart pricing method store oid iid sid).order
          = some ord →
      ord.order_lines = cart.items.map (fun cart_item =>
        { product := cart_item.product, quantity := cart_item.quantity
          unit_price := cart_item.product.price }) ∧
      ord.order_lines.length = cart.items.length) ∧
    (∀ (l : OrderLine) (p : ℚ),
      ({ l with product := { l.product with price := p } } : OrderLine).unit_price
          = l.unit_price ∧
      ({ l with product := { l.product with price := p } } : OrderLine).get_line_total
          = l.get_line_total) := by
  have hne : cart.is_empty = false := is_empty_eq_false_of_ne_nil cart h
  refine ⟨?_, ?_, fun l p => ⟨rfl, rfl⟩⟩
  · simp only [ApplicationController.checkout, hne, Bool.false_eq_true, if_false]
    by_cases hp : (PaymentService.process_order_payment (checkoutOrder user cart pricing oid)
        method).1 = true
    · rw [if_pos hp]; rfl
    · rw [if_neg hp]; rfl
  · intro ord hord
    simp only [ApplicationController.checkout, hne, Bool.false_eq_true, if_false] at hord
    by_cases hp : (PaymentService.process_order_payment (checkoutOrder user cart pricing oid)
        method).1 = true
    · rw [if_pos hp] at hord
      simp only [Option.some.injEq] at hord
      subst hord
      refine ⟨rfl, ?_⟩
      show (assembleOrderLines cart.items).length = cart.items.length
      simp [assembleOrderLines]
    · rw [if_neg hp] at hord
      simp only [Option.some.injEq] at hord
      subst hord
      refine ⟨rfl, ?_⟩
      show (assembleOrderLines cart.items).length = cart.items.length
      simp [assembleOrderLines]

/-- Witness for C3: a concrete one-item checkout builds an order. -/
theorem C3_order_assembly_witness :
    (ApplicationController.checkout (some sampleCustomer) sampleCart samplePricing
        "credit_card" (.jsonList []) "order-1" "inv-1" "ship-1").order.isSome = true :=
  (C3_order_assembly sampleCustomer sampleCart samplePricing "credit_card"
      (.jsonList []) "order-1" "inv-1" "ship-1" (by decide)).1

/-! Reference-semantics model for the invoice line items (C4).  In checkout
(ui.py) the invoice is built with order_lines=order.order_lines and
Invoice.__init__ (models.py) executes self.items = order_lines, so the
invoice and the order share one Python list object.  The model makes list
identity explicit: a heap of list objects indexed by natural numbers. -/

namespace Alias

/-- A heap of list objects holding order lines; a reference is an index. -/
structure LinesHeap where
  lists : List (List OrderLine)
deriving DecidableEq

/-- Dereference a list object (out-of-range references never arise). -/
def LinesHeap.get (h : LinesHeap) (r : Nat) : List OrderLine :=
  h.lists.getD r []

/-- Overwrite a list object in place. -/
def LinesHeap.set (h : LinesHeap) (r : Nat) (v : List OrderLine) : LinesHeap :=
  ⟨h.lists.set r v⟩

/-- Order (models.py) with its order_lines field as a heap reference. -/
structure OrderObj where
  order_id : String
  customer_id : String
  lines_ref : Nat
  subtotal : ℚ
  tax_amount : ℚ
  shipping_cost : ℚ
  total_amount : ℚ
  status : String
deriving DecidableEq

/-- Invoice (models.py) with its items field as a heap reference. -/
structure InvoiceObj where
  invoice_id : String
  order_id : String
  customer_id : String
  items_ref : Nat
  subtotal : ℚ
  tax_amount : ℚ
  total_amount : ℚ
deriving DecidableEq

/-- Invoice.__init__ (models.py) as called from checkout (ui.py) with
order_lines=order.order_lines: the assignment self.items = order_lines
binds the very list object of the order, so the stored items reference is
the lines reference of the order; the totals are scalars copied by value. -/
def InvoiceObj.init_from_order (fresh_invoice_id : String) (o : OrderObj) : InvoiceObj :=
  { invoice_id := fresh_invoice_id
    order_id := o.order_id
    customer_id := o.customer_id
    items_ref := o.lines_ref
    subtotal := o.subtotal
    tax_amount := o.tax_amount
    total_amount := o.total_amount }

/-- Order.add_line (models.py) under reference semantics: append to the heap
list object the order refers to. -/
def OrderObj.add_line (o : OrderObj) (h : LinesHeap) (line : OrderLine) : LinesHeap :=
  h.set o.lines_ref (h.get o.lines_ref ++ [line])

/-- The line items of the invoice, read through its reference. -/
def InvoiceObj.items (inv : InvoiceObj) (h : LinesHeap) : List OrderLine :=
  h.get inv.items_ref

theorem getD_set_self (l : List (List OrderLine)) (i : Nat) (v : List OrderLine)
    (h : i < l.length) : (l.set i v).getD i [] = v := by
  induction l generalizing i with
  | nil => simp at h
  | cons a as ih =>
    cases i with
    | zero => rfl
    | succ n =>
      have hn : n < as.length := by simpa using h
      show (as.set n v).getD n [] = v
      exact ih n hn

end Alias

def c4Heap : Alias.LinesHeap := ⟨[[sampleLine]]⟩

def c4Order : Alias.OrderObj :=
  { order_id := "order-1", customer_id := "cust-1", lines_ref := 0
    subtotal := 10, tax_amount := 1, shipping_cost := 3, total_amount := 14
    status := "Paid" }

def c4Invoice : Alias.InvoiceObj := Alias.InvoiceObj.init_from_order "inv-1" c4Order

def c4NewLine : OrderLine := { product := sampleProduct, quantity := 1, unit_price := 5 }

/-- C4 counterexample: for a concrete order with one line and its generated
invoice, appending a new line to the order changes the line items read from
the invoice, because both hold the same list object. -/
theorem C4_invoice_copy_counterexample :
    c4Invoice.items (c4Order.add_line c4Heap c4NewLine) ≠ c4Invoice.items c4Heap := by
  decide

/-- C4 amended: the invoice aliases the line list of the order instead of
copying it: its items reference equals the lines reference of the order, so
appending a line to the order appends it to the invoice items as well; only
the scalar totals are copied by value at generation time and stay unchanged
under later mutation of the order. -/
theorem C4_invoice_alias (h : Alias.LinesHeap) (o : Alias.OrderObj)
    (iid : String) (line : OrderLine) (href : o.lines_ref < h.lists.length) :
    (Alias.InvoiceObj.init_from_order iid o).items_ref = o.lines_ref ∧
    (Alias.InvoiceObj.init_from_order iid o).items (o.add_line h line)
        = (Alias.InvoiceObj.init_from_order iid o).items h ++ [line] ∧
    (Alias.InvoiceObj.init_from_order iid o).subtotal = o.subtotal ∧
    (Alias.InvoiceObj.init_from_order iid o).tax_amount = o.tax_amount ∧
    (Alias.InvoiceObj.init_from_order iid o).total_amount = o.total_amount := by
  refine ⟨rfl, ?_, rfl, rfl, rfl⟩
  show (h.lists.set o.lines_ref (h.lists.getD o.lines_ref [] ++ [line])).getD o.lines_ref []
      = h.lists.getD o.lines_ref [] ++ [line]
  exact Alias.getD_set_self h.lists o.lines_ref _ href

/-- Witness for C4 amended on the concrete heap of the counterexample. -/
theorem C4_invoice_alias_witness :
    (Alias.InvoiceObj.init_from_order "inv-1" c4Order).items_ref = c4Order.lines_ref ∧
    (Alias.InvoiceObj.init_from_order "inv-1" c4Order).items
        (c4Order.add_line c4Heap c4NewLine)
        = (Alias.InvoiceObj.init_from_order "inv-1" c4Order).items c4Heap ++ [c4NewLine] ∧
    (Alias.InvoiceObj.init_from_order "inv-1" c4Order).subtotal = c4Order.subtotal ∧
    (Alias.InvoiceObj.init_from_order "inv-1" c4Order).tax_amount = c4Order.tax_amount ∧
    (Alias.InvoiceObj.init_from_order "inv-1" c4Order).total_amount = c4Order.total_amount :=
  C4_invoice_alias c4Heap c4Order "inv-1" c4NewLine (by decide)

end ECommerce
